import Mathlib

/-!
Shallow embedding of the trajectory-to-volume pipeline of
src/lib/uplan-new/UplanGeneratorComplete.cpp (namespace UPlanGeneration).
C++ doubles are modelled as rationals; the GeographicLib geodesy solver is an
external collaborator and is modelled as an abstract structure of three
functions, as the spec directs (§2, §6, §9).
-/

namespace UPlanGeneration

/-- Waypoint record (UplanGeneratorComplete.h lines 14-19): latitude and
longitude in degrees, height in metres AGL, time in seconds. -/
structure WaypointComplete where
  lat : ℚ
  lon : ℚ
  h : ℚ
  time : ℚ
deriving DecidableEq

/-- Configuration record (UplanGeneratorComplete.h lines 21-27). -/
structure UplanConfigComplete where
  TSE_H : ℚ
  TSE_V : ℚ
  Alpha_H : ℚ
  Alpha_V : ℚ
  tbuf : ℚ
deriving DecidableEq

/-- Modelled from the spec (§3, §6) and its use in the source: a polygon
vertex, stored as (lon, lat) — the source builds Point(lon, lat). -/
structure Point where
  lon : ℚ
  lat : ℚ
deriving DecidableEq

/-- Modelled from the spec (§3, §6) and its use in the source: an altitude
with a numeric value, a unit of measure and a reference datum. -/
structure Altitude where
  value : ℚ
  uom : String
  reference : String
deriving DecidableEq

/-- Modelled from the spec (§3, §6) and its use in the source: a geometry
with a type tag, one ring of vertices, and a bounding box. -/
structure Geometry where
  type : String
  coordinates : List (List Point)
  bbox : List ℚ
deriving DecidableEq

/-- Modelled from the spec (§3, §6) and its use in the source: one operation
volume. Time bounds are the integer-second values passed to
Functions::from_unix_timestamp in the source (lines 251-255). -/
structure Volume where
  geometry : Geometry
  timeBegin : ℤ
  timeEnd : ℤ
  minAltitude : Altitude
  maxAltitude : Altitude
  ordinal : ℤ
deriving DecidableEq

/-- External geodesy primitive (GeographicLib WGS84 in the source, spec §6):
dist and azi are the two outputs of the inverse solve used by
calculateDistance (lines 117-122) and calculateAzimuth (lines 124-129);
direct is the direct solve (lat, lon, azimuth, distance) → (lat, lon). -/
structure Geodesy where
  dist : ℚ → ℚ → ℚ → ℚ → ℚ
  azi : ℚ → ℚ → ℚ → ℚ → ℚ
  direct : ℚ → ℚ → ℚ → ℚ → ℚ × ℚ

/-- Stride loop of reduceWaypoints (lines 101-103): starting on the list it
is given, take the current element when the countdown is 0 and then skip
k - 1 elements, i.e. keep relative indices 0, k, 2k, .... -/
def strideAux {α : Type} (k : Nat) : Nat → List α → List α
  | _, [] => []
  | 0, x :: xs => x :: strideAux k (k - 1) xs
  | n + 1, _ :: xs => strideAux k n xs

/-- Endpoint-preservation step of reduceWaypoints (lines 106-108): append the
original last waypoint unless the reduced list already ends at a waypoint
with the same time. -/
def reduceTail (waypoints reduced : List WaypointComplete) : List WaypointComplete :=
  match reduced.getLast?, waypoints.getLast? with
  | some r, some w => if r.time ≠ w.time then reduced ++ [w] else reduced
  | _, _ => reduced

/-- reduceWaypoints (lines 91-115): pass through inputs of length ≤ 2; clamp
the compression factor to at least 1; keep indices 1, 1+k, 1+2k, ...; then
ensure the original endpoint is kept. -/
def reduceWaypoints (waypoints : List WaypointComplete) (compression_factor : Int) :
    List WaypointComplete :=
  if waypoints.length ≤ 2 then waypoints
  else
    reduceTail waypoints
      (strideAux (max compression_factor 1).toNat 0 (waypoints.drop 1))

/-- Segment classification (lines 184-207): strictly horizontal-dominant,
else strictly vertical-dominant, else mixed. -/
inductive SegClass where
  | horizontal
  | vertical
  | mixed
deriving DecidableEq

/-- Classification chain of generateVolumes (lines 187-207): is_horizontal
when horizontal_distance > Alpha_H * vertical_distance, else is_vertical
when vertical_distance > Alpha_V * horizontal_distance, else mixed. -/
def segClass (cfg : UplanConfigComplete) (horizontal_distance vertical_distance : ℚ) :
    SegClass :=
  if horizontal_distance > cfg.Alpha_H * vertical_distance then SegClass.horizontal
  else if vertical_distance > cfg.Alpha_V * horizontal_distance then SegClass.vertical
  else SegClass.mixed

/-- Buffer sizes chosen in the branch bodies of generateVolumes
(lines 190-207). -/
structure BufferSizing where
  along_track : ℚ
  cross_track : ℚ
  vertical_buffer : ℚ
deriving DecidableEq

/-- Sizing rows of generateVolumes (lines 192-207), one per class. -/
def bufferSizing (cfg : UplanConfigComplete) (distance vertical_distance : ℚ) :
    BufferSizing :=
  match segClass cfg distance vertical_distance with
  | SegClass.horizontal => ⟨distance / 2 + cfg.TSE_H, cfg.TSE_H, cfg.TSE_V⟩
  | SegClass.vertical => ⟨cfg.TSE_H, cfg.TSE_H, vertical_distance / 2 + cfg.TSE_V⟩
  | SegClass.mixed => ⟨distance / 2 + cfg.TSE_H, cfg.TSE_H, vertical_distance / 2 + cfg.TSE_V⟩

/-- generateOrientedRectangleCorners (lines 131-159): project front and back
from the midpoint along the bearing, then the four corners, and close the
polygon by repeating the first corner. Vertices are (lon, lat). -/
def generateOrientedRectangleCorners (g : Geodesy)
    (mid_lat mid_lon azimuth along_track cross_track : ℚ) : List Point :=
  let perpendicular_left := azimuth - 90
  let perpendicular_right := azimuth + 90
  let front := g.direct mid_lat mid_lon azimuth along_track
  let back := g.direct mid_lat mid_lon (azimuth + 180) along_track
  let corner1 := g.direct front.1 front.2 perpendicular_left cross_track
  let corner2 := g.direct front.1 front.2 perpendicular_right cross_track
  let corner3 := g.direct back.1 back.2 perpendicular_right cross_track
  let corner4 := g.direct back.1 back.2 perpendicular_left cross_track
  [⟨corner1.2, corner1.1⟩, ⟨corner2.2, corner2.1⟩, ⟨corner3.2, corner3.1⟩,
    ⟨corner4.2, corner4.1⟩, ⟨corner1.2, corner1.1⟩]

/-- Bounding-box computation of generateVolumes (lines 213-227): fold min and
max of lon and lat over all corners but the (repeated) last one. The C++
fold starts from sentinel values (max and lowest double) that every finite
coordinate improves on, so it equals the fold from the first corner. Order
is minLon, minLat, maxLon, maxLat. -/
def bboxOf (corners : List Point) : List ℚ :=
  match corners.dropLast with
  | [] => []
  | p :: ps =>
    [ps.foldl (fun a q => min a q.lon) p.lon,
     ps.foldl (fun a q => min a q.lat) p.lat,
     ps.foldl (fun a q => max a q.lon) p.lon,
     ps.foldl (fun a q => max a q.lat) p.lat]

/-- Fixed constant of generateVolumes (line 167). -/
def minimum_ground_clearance : ℚ := 10

/-- Truncation toward zero, the behaviour of the C++ cast from double to
long long used on the time bounds (lines 251-252). -/
def truncQ (q : ℚ) : ℤ :=
  if q < 0 then -⌊-q⌋ else ⌊q⌋

/-- Loop body of generateVolumes (lines 169-258) for segment i from wp1 to
wp2: distance and azimuth from the geodesy inverse solve, planar midpoint,
midpoint altitude from the two height extremes, classification and buffer
sizing, oriented polygon, ground-clearance clamp on the lower altitude, and
the integer-second time window widened by tbuf on both sides. -/
def mkVolume (g : Geodesy) (cfg : UplanConfigComplete) (start_timestamp : ℚ)
    (i : Nat) (wp1 wp2 : WaypointComplete) : Volume :=
  let distance := g.dist wp1.lat wp1.lon wp2.lat wp2.lon
  let azimuth := g.azi wp1.lat wp1.lon wp2.lat wp2.lon
  let mid_lat := (wp1.lat + wp2.lat) / 2
  let mid_lon := (wp1.lon + wp2.lon) / 2
  let min_alt := min wp1.h wp2.h
  let max_alt := max wp1.h wp2.h
  let mid_alt := (min_alt + max_alt) / 2
  let vertical_distance := |wp2.h - wp1.h|
  let sizing := bufferSizing cfg distance vertical_distance
  let corners := generateOrientedRectangleCorners g mid_lat mid_lon azimuth
    sizing.along_track sizing.cross_track
  let geometry : Geometry := ⟨"Polygon", [corners], bboxOf corners⟩
  let minAltValue :=
    if mid_alt - sizing.vertical_buffer < minimum_ground_clearance
    then minimum_ground_clearance
    else mid_alt - sizing.vertical_buffer
  let segment_start_time := start_timestamp + wp1.time
  let segment_end_time := start_timestamp + wp2.time
  { geometry := geometry
    timeBegin := truncQ (segment_start_time - cfg.tbuf)
    timeEnd := truncQ (segment_end_time + cfg.tbuf)
    minAltitude := ⟨minAltValue, "M", "AGL"⟩
    maxAltitude := ⟨mid_alt + sizing.vertical_buffer, "M", "AGL"⟩
    ordinal := (i : ℤ) }

/-- Placeholder waypoint for out-of-range list reads; generateVolumes only
reads indices i and i+1 with i+1 < length, so it is never selected there. -/
def defaultWaypoint : WaypointComplete := ⟨0, 0, 0, 0⟩

/-- Placeholder volume for out-of-range list reads in statements. -/
def defaultVolume : Volume :=
  ⟨⟨"Polygon", [], []⟩, 0, 0, ⟨0, "M", "AGL"⟩, ⟨0, "M", "AGL"⟩, 0⟩

/-- generateVolumes (lines 161-263): one volume per adjacent waypoint pair,
in segment order, with ordinal i for the segment starting at index i. The
source assumes at least 2 reduced waypoints (guarded by the caller at
line 355). -/
def generateVolumes (g : Geodesy) (cfg : UplanConfigComplete)
    (wp_reduced : List WaypointComplete) (start_timestamp : ℚ) : List Volume :=
  (List.range (wp_reduced.length - 1)).map fun i =>
    mkVolume g cfg start_timestamp i
      (wp_reduced.getD i defaultWaypoint) (wp_reduced.getD (i + 1) defaultWaypoint)

/-- Volume pipeline of generateCompleteUplan (lines 337-360): abort on an
empty waypoint list, reduce with the hard-coded compression factor 20
(line 354), abort when fewer than 2 waypoints remain, else generate the
volume list. The JSON envelope around the volume list is bookkeeping and
out of core scope (spec §1, §6). -/
def generateCompleteUplan (g : Geodesy) (cfg : UplanConfigComplete)
    (waypoints : List WaypointComplete) (start_timestamp : ℚ) :
    Option (List Volume) :=
  if waypoints.isEmpty then none
  else
    let wp_reduced := reduceWaypoints waypoints 20
    if wp_reduced.length < 2 then none
    else some (generateVolumes g cfg wp_reduced start_timestamp)

/-- Volume produced for segment i, as a total function for use in
statements. -/
def volumeAt (g : Geodesy) (cfg : UplanConfigComplete)
    (ws : List WaypointComplete) (start_timestamp : ℚ) (i : Nat) : Volume :=
  (generateVolumes g cfg ws start_timestamp).getD i defaultVolume

/-- Deterministic stub of the external geodesy primitive for concrete
evaluation, as the spec allows for testing (§9): taxicab distance on raw
coordinates, bearing 0, planar displacement in latitude. It agrees with any
geodesic implementation on coincident endpoints, where both report
distance 0. -/
def stubGeodesy : Geodesy where
  dist lat1 lon1 lat2 lon2 := |lat2 - lat1| + |lon2 - lon1|
  azi _ _ _ _ := 0
  direct lat lon _ d := (lat + d, lon)

/-- Default configuration values (UplanGeneratorComplete.h lines 21-27),
also the values set by the driver (main_uplangenerator.cpp lines 147-152)
and the worked scenario of spec §8. -/
def cfgDefault : UplanConfigComplete := ⟨15, 10, 7, 1, 5⟩

/-- Concrete trajectory samples (distinct times, one position) used for
evaluating the reducer on explicit inputs. -/
def wA : WaypointComplete := ⟨0, 0, 0, 0⟩

/-- Second concrete trajectory sample. -/
def wB : WaypointComplete := ⟨0, 0, 0, 1⟩

/-- Third concrete trajectory sample. -/
def wC : WaypointComplete := ⟨0, 0, 0, 2⟩

/-- Fourth concrete trajectory sample. -/
def wD : WaypointComplete := ⟨0, 0, 0, 3⟩

/-- Configuration with a small vertical margin (TSE_V = 5), used to evaluate
the altitude clamp on a low-altitude segment. -/
def cfgLow : UplanConfigComplete := ⟨15, 5, 7, 1, 5⟩

/-- Ground-level waypoint at a fixed position, time 0. -/
def pLow : WaypointComplete := ⟨40, -3, 0, 0⟩

/-- Ground-level waypoint at the same position, time 10. -/
def qLow : WaypointComplete := ⟨40, -3, 0, 10⟩

/-- Configuration with Alpha_H * Alpha_V < 1 (Alpha_H = 2, Alpha_V = 1/4),
used to evaluate tie-breaking in the classifier. -/
def cfgC4 : UplanConfigComplete := ⟨15, 10, 2, 1/4, 5⟩

/-- First waypoint of the spec §8 scenario: t=0, lat=40, lon=-3, h=0. -/
def wpT0 : WaypointComplete := ⟨40, -3, 0, 0⟩

/-- Second waypoint of the spec §8 scenario: t=10, lat=40.0001, lon=-3,
h=50. -/
def wpT1 : WaypointComplete := ⟨400001 / 10000, -3, 50, 10⟩

/-- Third waypoint of the spec §8 scenario: t=40, same position and height
as the second. -/
def wpT2 : WaypointComplete := ⟨400001 / 10000, -3, 50, 40⟩

/-! Helper lemmas about the reducer. -/

theorem strideAux_one {α : Type} : ∀ l : List α, strideAux 1 0 l = l
  | [] => rfl
  | x :: xs => congrArg (x :: ·) (strideAux_one xs)

theorem strideAux_zero_cons {α : Type} (k : Nat) (x : α) (xs : List α) :
    strideAux k 0 (x :: xs) = x :: strideAux k (k - 1) xs := rfl

theorem strideAux_ne_nil {α : Type} (k : Nat) (l : List α) (h : l ≠ []) :
    strideAux k 0 l ≠ [] := by
  cases l with
  | nil => exact absurd rfl h
  | cons x xs => rw [strideAux_zero_cons]; exact List.cons_ne_nil _ _

theorem getLast?_drop_one {α : Type} (l : List α) (h : 2 ≤ l.length) :
    (l.drop 1).getLast? = l.getLast? := by
  match l with
  | [] => simp at h
  | [a] => simp at h
  | a :: b :: t => exact (List.getLast?_cons_cons).symm

theorem reduceTail_getLast_time (ws rd : List WaypointComplete)
    (hrd : rd ≠ []) (hws : ws ≠ []) :
    (reduceTail ws rd).getLast?.map WaypointComplete.time
      = ws.getLast?.map WaypointComplete.time := by
  have hr := rd.getLast?_eq_getLast hrd
  have hw := ws.getLast?_eq_getLast hws
  unfold reduceTail
  rw [hr, hw]
  show (if (rd.getLast hrd).time ≠ (ws.getLast hws).time
        then rd ++ [ws.getLast hws] else rd).getLast?.map WaypointComplete.time
      = (some (ws.getLast hws)).map WaypointComplete.time
  by_cases ht : (rd.getLast hrd).time ≠ (ws.getLast hws).time
  · rw [if_pos ht, List.getLast?_concat]
  · rw [if_neg ht, hr]
    push_neg at ht
    simp [ht]

theorem reduceTail_eq_self (ws rd : List WaypointComplete)
    (hrd : rd ≠ []) (h : rd.getLast? = ws.getLast?) : reduceTail ws rd = rd := by
  have hr := rd.getLast?_eq_getLast hrd
  have hws : ws ≠ [] := by
    intro e
    rw [e, List.getLast?_nil, hr] at h
    exact Option.noConfusion h
  have hw := ws.getLast?_eq_getLast hws
  have hrw : rd.getLast hrd = ws.getLast hws := by
    rw [hr, hw] at h
    exact Option.some.inj h
  unfold reduceTail
  rw [hr, hw]
  show (if (rd.getLast hrd).time ≠ (ws.getLast hws).time
        then rd ++ [ws.getLast hws] else rd) = rd
  rw [if_neg (by simp [hrw])]

theorem reduceWaypoints_one (l : List WaypointComplete) :
    reduceWaypoints l 1 = if l.length ≤ 2 then l else l.tail := by
  by_cases h : l.length ≤ 2
  · rw [if_pos h]
    unfold reduceWaypoints
    rw [if_pos h]
  · rw [if_neg h]
    unfold reduceWaypoints
    rw [if_neg h]
    have hk : ((max (1 : ℤ) 1).toNat) = 1 := rfl
    rw [hk, strideAux_one]
    have hlen : 0 < (l.drop 1).length := by
      rw [List.length_drop]
      omega
    rw [reduceTail_eq_self l (l.drop 1) (List.length_pos.mp hlen)
      (getLast?_drop_one l (by omega))]
    exact List.drop_one l

/-! Helper lemmas about the volume generator. -/

theorem generateVolumes_length (g : Geodesy) (cfg : UplanConfigComplete)
    (ws : List WaypointComplete) (start : ℚ) :
    (generateVolumes g cfg ws start).length = ws.length - 1 := by
  simp [generateVolumes]

theorem volumeAt_eq (g : Geodesy) (cfg : UplanConfigComplete)
    (ws : List WaypointComplete) (start : ℚ) (i : Nat) (hi : i + 1 < ws.length) :
    volumeAt g cfg ws start i
      = mkVolume g cfg start i (ws.getD i defaultWaypoint)
          (ws.getD (i + 1) defaultWaypoint) := by
  unfold volumeAt
  have hlen : i < (generateVolumes g cfg ws start).length := by
    rw [generateVolumes_length]
    omega
  rw [List.getD_eq_getElem _ _ hlen]
  simp [generateVolumes]

theorem mkVolume_minAltitude_value (g : Geodesy) (cfg : UplanConfigComplete)
    (start : ℚ) (i : Nat) (wp1 wp2 : WaypointComplete) :
    (mkVolume g cfg start i wp1 wp2).minAltitude.value =
      if (min wp1.h wp2.h + max wp1.h wp2.h) / 2
          - (bufferSizing cfg (g.dist wp1.lat wp1.lon wp2.lat wp2.lon)
              |wp2.h - wp1.h|).vertical_buffer
          < minimum_ground_clearance
      then minimum_ground_clearance
      else (min wp1.h wp2.h + max wp1.h wp2.h) / 2
          - (bufferSizing cfg (g.dist wp1.lat wp1.lon wp2.lat wp2.lon)
              |wp2.h - wp1.h|).vertical_buffer := rfl

theorem mkVolume_maxAltitude_value (g : Geodesy) (cfg : UplanConfigComplete)
    (start : ℚ) (i : Nat) (wp1 wp2 : WaypointComplete) :
    (mkVolume g cfg start i wp1 wp2).maxAltitude.value =
      (min wp1.h wp2.h + max wp1.h wp2.h) / 2
        + (bufferSizing cfg (g.dist wp1.lat wp1.lon wp2.lat wp2.lon)
            |wp2.h - wp1.h|).vertical_buffer := rfl

theorem mkVolume_timeBegin (g : Geodesy) (cfg : UplanConfigComplete)
    (start : ℚ) (i : Nat) (wp1 wp2 : WaypointComplete) :
    (mkVolume g cfg start i wp1 wp2).timeBegin
      = truncQ (start + wp1.time - cfg.tbuf) := rfl

theorem mkVolume_timeEnd (g : Geodesy) (cfg : UplanConfigComplete)
    (start : ℚ) (i : Nat) (wp1 wp2 : WaypointComplete) :
    (mkVolume g cfg start i wp1 wp2).timeEnd
      = truncQ (start + wp2.time + cfg.tbuf) := rfl

theorem mkVolume_ordinal (g : Geodesy) (cfg : UplanConfigComplete)
    (start : ℚ) (i : Nat) (wp1 wp2 : WaypointComplete) :
    (mkVolume g cfg start i wp1 wp2).ordinal = (i : ℤ) := rfl

theorem vertical_buffer_nonneg (cfg : UplanConfigComplete) (hV : 0 ≤ cfg.TSE_V)
    (d vd : ℚ) (hvd : 0 ≤ vd) : 0 ≤ (bufferSizing cfg d vd).vertical_buffer := by
  unfold bufferSizing
  split <;> simp only [] <;> linarith

theorem clamp_bounds (m vb : ℚ) :
    minimum_ground_clearance
        ≤ (if m - vb < minimum_ground_clearance then minimum_ground_clearance else m - vb) ∧
    (0 ≤ vb → minimum_ground_clearance ≤ m + vb →
      (if m - vb < minimum_ground_clearance then minimum_ground_clearance else m - vb)
        ≤ m + vb) := by
  constructor
  · split
    · exact le_refl _
    · unfold minimum_ground_clearance at *
      linarith
  · intro hvb hmax
    split
    · exact hmax
    · linarith

theorem truncQ_mono {a b : ℚ} (hab : a ≤ b) : truncQ a ≤ truncQ b := by
  unfold truncQ
  by_cases ha : a < 0 <;> by_cases hb : b < 0
  · rw [if_pos ha, if_pos hb]
    have hf : ⌊-b⌋ ≤ ⌊-a⌋ := Int.floor_le_floor (by linarith)
    omega
  · rw [if_pos ha, if_neg hb]
    have h1 : (0 : ℤ) ≤ ⌊-a⌋ := Int.le_floor.mpr (by push_cast; linarith)
    have h2 : (0 : ℤ) ≤ ⌊b⌋ := Int.le_floor.mpr (by push_cast; linarith)
    omega
  · exact absurd (lt_of_le_of_lt hab hb) ha
  · rw [if_neg ha, if_neg hb]
    exact Int.floor_le_floor hab

/-! Claim C1. -/

/-- C1 counterexample: the claim that re-reducing an output of
reduceWaypoints with compression factor 1 is the identity fails on the
4-sample input wA..wD: the first reduction yields the 3-element list
[wB, wC, wD], and reducing that again with factor 1 drops its first
element. -/
theorem c1_counterexample :
    reduceWaypoints (reduceWaypoints [wA, wB, wC, wD] 1) 1
      ≠ reduceWaypoints [wA, wB, wC, wD] 1 := by decide

/-- C1 amended: reducing an already-reduced sequence with compression
factor 1 is the identity exactly when that sequence has at most 2 elements;
when it has 3 or more, the stride selection starts at index 1 and so removes
the first element, returning the tail. -/
theorem c1_reduce_reduced_stride_one (ws : List WaypointComplete) (k : ℤ) :
    reduceWaypoints (reduceWaypoints ws k) 1 =
      if (reduceWaypoints ws k).length ≤ 2 then reduceWaypoints ws k
      else (reduceWaypoints ws k).tail :=
  reduceWaypoints_one (reduceWaypoints ws k)

/-! Claim C2. -/

/-- C2 counterexample: with TSE_V = 5 and a segment between two coincident
ground-level waypoints (heights 0), the produced volume has
altitude_max = 5 but the ground-clearance clamp raises altitude_min to 10,
so altitude_min ≤ altitude_max fails. -/
theorem c2_counterexample :
    (volumeAt stubGeodesy cfgLow [pLow, qLow] 0 0).maxAltitude.value
      < (volumeAt stubGeodesy cfgLow [pLow, qLow] 0 0).minAltitude.value := by
  have e0 : List.getD [pLow, qLow] 0 defaultWaypoint = pLow := rfl
  have e1 : List.getD [pLow, qLow] 1 defaultWaypoint = qLow := rfl
  rw [volumeAt_eq stubGeodesy cfgLow [pLow, qLow] 0 0 (by simp), e0, e1,
    mkVolume_minAltitude_value, mkVolume_maxAltitude_value]
  norm_num [pLow, qLow, cfgLow, stubGeodesy, bufferSizing, segClass,
    minimum_ground_clearance]

/-- C2 amended: for every geodesy, configuration, waypoint sequence and
segment index, the produced volume has altitude_min ≥ 10 unconditionally
(the clamp applies for every configuration); and altitude_min ≤
altitude_max holds additionally whenever TSE_V ≥ 0 and altitude_max is
itself at least the 10 m ground-clearance floor (the clamp can push
altitude_min above altitude_max only when the whole buffered band lies
below 10 m). -/
theorem c2_altitude_floor (g : Geodesy) (cfg : UplanConfigComplete)
    (ws : List WaypointComplete) (start : ℚ) (i : Nat)
    (hi : i + 1 < ws.length) :
    minimum_ground_clearance ≤ (volumeAt g cfg ws start i).minAltitude.value ∧
    (0 ≤ cfg.TSE_V →
      minimum_ground_clearance ≤ (volumeAt g cfg ws start i).maxAltitude.value →
      (volumeAt g cfg ws start i).minAltitude.value
        ≤ (volumeAt g cfg ws start i).maxAltitude.value) := by
  rw [volumeAt_eq g cfg ws start i hi, mkVolume_minAltitude_value,
    mkVolume_maxAltitude_value]
  refine ⟨(clamp_bounds _ _).1, fun hV => ?_⟩
  exact (clamp_bounds _ _).2 (vertical_buffer_nonneg cfg hV _ _ (abs_nonneg _))

/-- C2 witness: the amended altitude bounds hold at the default
configuration on a concrete two-waypoint segment. -/
theorem c2_witness :
    0 + 1 < ([pLow, qLow] : List WaypointComplete).length ∧
    (minimum_ground_clearance
        ≤ (volumeAt stubGeodesy cfgDefault [pLow, qLow] 0 0).minAltitude.value ∧
      (0 ≤ cfgDefault.TSE_V →
        minimum_ground_clearance
            ≤ (volumeAt stubGeodesy cfgDefault [pLow, qLow] 0 0).maxAltitude.value →
        (volumeAt stubGeodesy cfgDefault [pLow, qLow] 0 0).minAltitude.value
          ≤ (volumeAt stubGeodesy cfgDefault [pLow, qLow] 0 0).maxAltitude.value)) :=
  ⟨by decide, c2_altitude_floor stubGeodesy cfgDefault [pLow, qLow] 0 0 (by decide)⟩

/-! Claim C3. -/

/-- C3 counterexample: in the spec §8 scenario the second segment has
coincident endpoints, so its geodesic distance is 0 (any geodesic
implementation, including the stub, reports 0 for coincident points) and
the strict horizontal-dominance test 0 > Alpha_H * 0 fails: the segment is
not classified by the horizontal-dominant branch. -/
theorem c3_counterexample :
    segClass cfgDefault (stubGeodesy.dist wpT1.lat wpT1.lon wpT2.lat wpT2.lon)
        |wpT2.h - wpT1.h| ≠ SegClass.horizontal := by
  norm_num [segClass, cfgDefault, stubGeodesy, wpT1, wpT2]
  decide

/-- C3 amended: in the spec §8 scenario, for every geodesy that reports
distance 0 between the coincident second and third waypoints, the second
segment is classified mixed, and since its vertical change is 0 the mixed
sizing row coincides with the claimed horizontal numbers: along-track 15,
vertical half-height 10, altitude band [40, 60]. -/
theorem c3_segment_two (g : Geodesy)
    (h0 : g.dist wpT1.lat wpT1.lon wpT2.lat wpT2.lon = 0) :
    segClass cfgDefault (g.dist wpT1.lat wpT1.lon wpT2.lat wpT2.lon)
        |wpT2.h - wpT1.h| = SegClass.mixed ∧
    (bufferSizing cfgDefault (g.dist wpT1.lat wpT1.lon wpT2.lat wpT2.lon)
        |wpT2.h - wpT1.h|).along_track = 15 ∧
    (bufferSizing cfgDefault (g.dist wpT1.lat wpT1.lon wpT2.lat wpT2.lon)
        |wpT2.h - wpT1.h|).vertical_buffer = 10 ∧
    (volumeAt g cfgDefault [wpT0, wpT1, wpT2] 1000 1).minAltitude.value = 40 ∧
    (volumeAt g cfgDefault [wpT0, wpT1, wpT2] 1000 1).maxAltitude.value = 60 := by
  have e1 : List.getD [wpT0, wpT1, wpT2] 1 defaultWaypoint = wpT1 := rfl
  have e2 : List.getD [wpT0, wpT1, wpT2] 2 defaultWaypoint = wpT2 := rfl
  refine ⟨?_, ?_, ?_, ?_, ?_⟩
  · rw [h0]
    norm_num [segClass, cfgDefault, wpT1, wpT2]
  · rw [h0]
    norm_num [bufferSizing, segClass, cfgDefault, wpT1, wpT2]
  · rw [h0]
    norm_num [bufferSizing, segClass, cfgDefault, wpT1, wpT2]
  · rw [volumeAt_eq g cfgDefault [wpT0, wpT1, wpT2] 1000 1 (by simp), e1, e2,
      mkVolume_minAltitude_value, h0]
    norm_num [bufferSizing, segClass, cfgDefault, wpT1, wpT2,
      minimum_ground_clearance]
  · rw [volumeAt_eq g cfgDefault [wpT0, wpT1, wpT2] 1000 1 (by simp), e1, e2,
      mkVolume_maxAltitude_value, h0]
    norm_num [bufferSizing, segClass, cfgDefault, wpT1, wpT2]

/-- C3 witness: the amended scenario statement holds for the concrete stub
geodesy, which reports distance 0 for the coincident endpoints. -/
theorem c3_witness :
    stubGeodesy.dist wpT1.lat wpT1.lon wpT2.lat wpT2.lon = 0 ∧
    (segClass cfgDefault (stubGeodesy.dist wpT1.lat wpT1.lon wpT2.lat wpT2.lon)
        |wpT2.h - wpT1.h| = SegClass.mixed ∧
      (bufferSizing cfgDefault (stubGeodesy.dist wpT1.lat wpT1.lon wpT2.lat wpT2.lon)
          |wpT2.h - wpT1.h|).along_track = 15 ∧
      (bufferSizing cfgDefault (stubGeodesy.dist wpT1.lat wpT1.lon wpT2.lat wpT2.lon)
          |wpT2.h - wpT1.h|).vertical_buffer = 10 ∧
      (volumeAt stubGeodesy cfgDefault [wpT0, wpT1, wpT2] 1000 1).minAltitude.value = 40 ∧
      (volumeAt stubGeodesy cfgDefault [wpT0, wpT1, wpT2] 1000 1).maxAltitude.value = 60) :=
  ⟨by norm_num [stubGeodesy, wpT1, wpT2],
    c3_segment_two stubGeodesy (by norm_num [stubGeodesy, wpT1, wpT2])⟩

/-! Claim C4. -/

/-- C4 counterexample: with Alpha_H = 2 and Alpha_V = 1/4, a segment with
horizontal distance 4 and vertical distance 2 sits exactly on the
horizontal-dominance tie (4 = 2 * 2), yet it is not classified mixed — the
vertical test 2 > (1/4) * 4 fires — and its along-track extent is the
vertical row's TSE_H, not the mixed row's distance/2 + TSE_H. -/
theorem c4_counterexample :
    (4 : ℚ) = cfgC4.Alpha_H * 2 ∧
    segClass cfgC4 4 2 ≠ SegClass.mixed ∧
    (bufferSizing cfgC4 4 2).along_track ≠ 4 / 2 + cfgC4.TSE_H := by
  norm_num [bufferSizing, segClass, cfgC4]
  decide

/-- C4 amended: at an exact horizontal-dominance tie
(horizontal_distance = Alpha_H * vertical_distance) the segment is never
classified horizontal-dominant; it falls through to the mixed sizing row
(along-track = distance/2 + TSE_H, cross-track = TSE_H, vertical
half-height = vertical_distance/2 + TSE_V) provided the vertical test also
fails, i.e. vertical_distance ≤ Alpha_V * horizontal_distance — which holds
in particular under the default configuration, where Alpha_H * Alpha_V ≥ 1. -/
theorem c4_tie_not_horizontal (cfg : UplanConfigComplete) (hd vd : ℚ)
    (htie : hd = cfg.Alpha_H * vd) :
    segClass cfg hd vd ≠ SegClass.horizontal ∧
    (vd ≤ cfg.Alpha_V * hd →
      segClass cfg hd vd = SegClass.mixed ∧
      bufferSizing cfg hd vd
        = ⟨hd / 2 + cfg.TSE_H, cfg.TSE_H, vd / 2 + cfg.TSE_V⟩) := by
  have hnh : ¬ hd > cfg.Alpha_H * vd := by rw [htie]; exact lt_irrefl _
  constructor
  · unfold segClass
    rw [if_neg hnh]
    split
    · exact fun h => SegClass.noConfusion h
    · exact fun h => SegClass.noConfusion h
  · intro hvle
    have hnv : ¬ vd > cfg.Alpha_V * hd := not_lt.mpr hvle
    have h2 : segClass cfg hd vd = SegClass.mixed := by
      unfold segClass
      rw [if_neg hnh, if_neg hnv]
    refine ⟨h2, ?_⟩
    unfold bufferSizing
    rw [h2]

/-- C4 witness: at the default configuration the tie 7 = 7 * 1 resolves to
the mixed row. -/
theorem c4_witness :
    (7 : ℚ) = cfgDefault.Alpha_H * 1 ∧
    (segClass cfgDefault 7 1 ≠ SegClass.horizontal ∧
      ((1 : ℚ) ≤ cfgDefault.Alpha_V * 7 →
        segClass cfgDefault 7 1 = SegClass.mixed ∧
        bufferSizing cfgDefault 7 1
          = ⟨7 / 2 + cfgDefault.TSE_H, cfgDefault.TSE_H, 1 / 2 + cfgDefault.TSE_V⟩)) :=
  ⟨by norm_num [cfgDefault], c4_tie_not_horizontal cfgDefault 7 1 (by norm_num [cfgDefault])⟩

/-! Claim C5. -/

/-- C5: for every input with at least 3 waypoints and every compression
factor, the reduced sequence's last element has the same time as the
input's last element. -/
theorem c5_reduce_endpoint (ws : List WaypointComplete) (k : ℤ)
    (h3 : 3 ≤ ws.length) :
    (reduceWaypoints ws k).getLast?.map WaypointComplete.time
      = ws.getLast?.map WaypointComplete.time := by
  unfold reduceWaypoints
  rw [if_neg (by omega : ¬ ws.length ≤ 2)]
  apply reduceTail_getLast_time
  · apply strideAux_ne_nil
    apply List.length_pos.mp
    rw [List.length_drop]
    omega
  · apply List.length_pos.mp
    omega

/-- C5 witness: endpoint preservation at a concrete 3-waypoint input with
stride 2. -/
theorem c5_witness :
    3 ≤ ([wA, wB, wC] : List WaypointComplete).length ∧
    (reduceWaypoints [wA, wB, wC] 2).getLast?.map WaypointComplete.time
      = ([wA, wB, wC] : List WaypointComplete).getLast?.map WaypointComplete.time :=
  ⟨by decide, c5_reduce_endpoint [wA, wB, wC] 2 (by decide)⟩

/-! Claim C6. -/

/-- C6: for every reduced sequence of N ≥ 2 waypoints, generateVolumes
returns exactly N - 1 volumes whose ordinals are 0, 1, ..., N - 2 in that
order. -/
theorem c6_ordinal_contiguity (g : Geodesy) (cfg : UplanConfigComplete)
    (ws : List WaypointComplete) (start : ℚ) (_h2 : 2 ≤ ws.length) :
    (generateVolumes g cfg ws start).length = ws.length - 1 ∧
    (generateVolumes g cfg ws start).map Volume.ordinal
      = (List.range (ws.length - 1)).map Int.ofNat := by
  refine ⟨generateVolumes_length g cfg ws start, ?_⟩
  unfold generateVolumes
  rw [List.map_map]
  rfl

/-- C6 witness: ordinal contiguity at a concrete 3-waypoint input. -/
theorem c6_witness :
    2 ≤ ([wA, wB, wC] : List WaypointComplete).length ∧
    ((generateVolumes stubGeodesy cfgDefault [wA, wB, wC] 0).length
        = ([wA, wB, wC] : List WaypointComplete).length - 1 ∧
      (generateVolumes stubGeodesy cfgDefault [wA, wB, wC] 0).map Volume.ordinal
        = (List.range (([wA, wB, wC] : List WaypointComplete).length - 1)).map
            Int.ofNat) :=
  ⟨by decide, c6_ordinal_contiguity stubGeodesy cfgDefault [wA, wB, wC] 0 (by decide)⟩

/-! Claim C7. -/

/-- C7: for every geodesy, midpoint, bearing and half-extents, the oriented
rectangle is the closed 5-vertex polygon [front-left, front-right,
back-right, back-left, front-left]: exactly 5 vertices, the first and last
identical, in the stated order. -/
theorem c7_polygon_closed (g : Geodesy)
    (mid_lat mid_lon azimuth along_track cross_track : ℚ) :
    (generateOrientedRectangleCorners g mid_lat mid_lon azimuth along_track
        cross_track).length = 5 ∧
    (generateOrientedRectangleCorners g mid_lat mid_lon azimuth along_track
        cross_track).head?
      = (generateOrientedRectangleCorners g mid_lat mid_lon azimuth along_track
          cross_track).getLast? ∧
    generateOrientedRectangleCorners g mid_lat mid_lon azimuth along_track
        cross_track =
      (let front := g.direct mid_lat mid_lon azimuth along_track
       let back := g.direct mid_lat mid_lon (azimuth + 180) along_track
       let front_left := g.direct front.1 front.2 (azimuth - 90) cross_track
       let front_right := g.direct front.1 front.2 (azimuth + 90) cross_track
       let back_right := g.direct back.1 back.2 (azimuth + 90) cross_track
       let back_left := g.direct back.1 back.2 (azimuth - 90) cross_track
       [⟨front_left.2, front_left.1⟩, ⟨front_right.2, front_right.1⟩,
        ⟨back_right.2, back_right.1⟩, ⟨back_left.2, back_left.1⟩,
        ⟨front_left.2, front_left.1⟩]) :=
  ⟨rfl, rfl, rfl⟩

/-! Claim C8. -/

/-- C8: every produced volume's time window is
[start + wp1.time - tbuf, start + wp2.time + tbuf], truncated toward zero
to integer seconds, where wp1 and wp2 are the segment's endpoints. -/
theorem c8_time_window (g : Geodesy) (cfg : UplanConfigComplete)
    (ws : List WaypointComplete) (start : ℚ) (i : Nat) (hi : i + 1 < ws.length) :
    (volumeAt g cfg ws start i).timeBegin
        = truncQ (start + (ws.getD i defaultWaypoint).time - cfg.tbuf) ∧
    (volumeAt g cfg ws start i).timeEnd
        = truncQ (start + (ws.getD (i + 1) defaultWaypoint).time + cfg.tbuf) := by
  rw [volumeAt_eq g cfg ws start i hi]
  exact ⟨mkVolume_timeBegin g cfg start i _ _, mkVolume_timeEnd g cfg start i _ _⟩

/-- C8 witness: the time window at a concrete segment. -/
theorem c8_witness :
    0 + 1 < ([wA, wB, wC] : List WaypointComplete).length ∧
    ((volumeAt stubGeodesy cfgDefault [wA, wB, wC] 1000 0).timeBegin
        = truncQ (1000 + (([wA, wB, wC] : List WaypointComplete).getD 0 defaultWaypoint).time
            - cfgDefault.tbuf) ∧
      (volumeAt stubGeodesy cfgDefault [wA, wB, wC] 1000 0).timeEnd
        = truncQ (1000 + (([wA, wB, wC] : List WaypointComplete).getD (0 + 1) defaultWaypoint).time
            + cfgDefault.tbuf)) :=
  ⟨by decide, c8_time_window stubGeodesy cfgDefault [wA, wB, wC] 1000 0 (by decide)⟩

/-! Claim C9. -/

/-- C9: generateCompleteUplan always reduces with the hard-coded
compression factor 20: for every geodesy, configuration, waypoint list and
start timestamp, its volume output is exactly the pipeline applied to
reduceWaypoints of the input with factor 20 — no configuration field or
caller argument enters the stride. -/
theorem c9_hardcoded_stride (g : Geodesy) (cfg : UplanConfigComplete)
    (ws : List WaypointComplete) (start : ℚ) :
    generateCompleteUplan g cfg ws start =
      if ws.isEmpty ∨ (reduceWaypoints ws 20).length < 2 then none
      else some (generateVolumes g cfg (reduceWaypoints ws 20) start) := by
  unfold generateCompleteUplan
  by_cases h1 : ws.isEmpty
  · simp [h1]
  · by_cases h2 : (reduceWaypoints ws 20).length < 2 <;> simp [h1, h2]

/-! Claim C10. -/

/-- C10: with a nonnegative time buffer, consecutive volumes' time windows
overlap: volume i+1 begins no later than volume i ends, because both bounds
truncate start + wp(i+1).time shifted by -tbuf and +tbuf respectively. -/
theorem c10_window_overlap (g : Geodesy) (cfg : UplanConfigComplete)
    (ws : List WaypointComplete) (start : ℚ) (i : Nat)
    (hbuf : 0 ≤ cfg.tbuf) (hi : i + 2 < ws.length) :
    (volumeAt g cfg ws start (i + 1)).timeBegin
      ≤ (volumeAt g cfg ws start i).timeEnd := by
  rw [volumeAt_eq g cfg ws start i (by omega),
    volumeAt_eq g cfg ws start (i + 1) (by omega),
    mkVolume_timeBegin, mkVolume_timeEnd]
  exact truncQ_mono (by linarith)

/-- C10 witness: window overlap at a concrete 3-waypoint input. -/
theorem c10_witness :
    0 ≤ cfgDefault.tbuf ∧
    0 + 2 < ([wA, wB, wC] : List WaypointComplete).length ∧
    (volumeAt stubGeodesy cfgDefault [wA, wB, wC] 0 (0 + 1)).timeBegin
      ≤ (volumeAt stubGeodesy cfgDefault [wA, wB, wC] 0 0).timeEnd :=
  ⟨by decide, by decide,
    c10_window_overlap stubGeodesy cfgDefault [wA, wB, wC] 0 0 (by decide) (by decide)⟩

end UPlanGeneration
